import Mathlib

/-!
Verification of the aggregation/filter pipelines of the movie-ratings
dashboard (`app.py`).  The four pipelines (genre distribution, average
rating by genre, rating trend by year, top rated movies) are embedded as
pure functions over a list of rating rows; ratings and percentages are
modelled as rationals, pandas `NaN` smoothing gaps as `Option`, and the
data frame's column schema as an explicit list of column names.
-/

namespace MovieDashboard

/-- A row of the movie-ratings table (`movie_ratings.csv`): identifier,
title, a single genre label, a numeric rating and a release year. -/
structure Row where
  movie_id : Nat
  title : String
  genres : String
  rating : ℚ
  year : Int
deriving DecidableEq

/-- A pandas-style data frame: its column schema together with the rows.
Pipelines that look up a column absent from `cols` fail like pandas'
`KeyError`. -/
structure Frame where
  cols : List String
  rows : List Row
deriving DecidableEq

/-! ## Q1: genre distribution (app.py lines 65-78) -/

/-- One row of `genre_counts`: a genre label with its row count and its
percentage share of the total. -/
structure GenreCount where
  genres : String
  count : Nat
  pct : ℚ
deriving DecidableEq

/-- `df.groupby("genres").size().reset_index(name="count")` followed by
`genre_counts["pct"] = 100 * count / count.sum()` (app.py lines 65-66).
One entry per distinct genre, keys sorted ascending as pandas `groupby`
does; the percentage denominator is the sum of the `count` column. -/
def genreCounts (df : List Row) : List GenreCount :=
  let gs := df.map Row.genres
  let keys := List.insertionSort (fun a b : String => a ≤ b) gs.dedup
  let total : ℚ := ((keys.map fun g => gs.count g).sum : ℕ)
  keys.map fun g => { genres := g, count := gs.count g, pct := 100 * (gs.count g : ℚ) / total }

/-- Genre-distribution pipeline (app.py lines 65-78): split genre counts
into major (`pct >= min_pct`) and minor (`pct < min_pct`) groups; when any
minor group exists, append a synthetic `"Other"` row whose count and
percentage are the sums over the minor groups. -/
def genreDistribution (df : List Row) (minPct : ℚ) : List GenreCount :=
  let gc := genreCounts df
  let major := gc.filter fun r => minPct ≤ r.pct
  let minor := gc.filter fun r => r.pct < minPct
  if minor.isEmpty then major
  else major ++ [{ genres := "Other", count := (minor.map GenreCount.count).sum,
                   pct := (minor.map GenreCount.pct).sum }]

/-! ## Q2: average rating by genre (app.py lines 101-107) -/

/-- One row of `genre_stats`: a genre with its mean rating and the number
of ratings carrying it. -/
structure GenreStat where
  genres : String
  avg_rating : ℚ
  num_ratings : Nat
deriving DecidableEq

/-- The two values of the `"Sort ratings"` radio widget (app.py line 99):
`"High → Low"` and `"Low → High"`. -/
inductive SortOrder where
  | highToLow
  | lowToHigh
deriving DecidableEq

/-- `df.groupby("genres").agg(avg_rating=("rating","mean"),
num_ratings=("rating","size")).reset_index()` (app.py lines 101-104):
one entry per distinct genre in ascending key order, carrying the mean
rating over the genre's rows and their number. -/
def genreStats (df : List Row) : List GenreStat :=
  (List.insertionSort (fun a b : String => a ≤ b) (df.map Row.genres).dedup).map fun g =>
    let grp := df.filter fun r => r.genres = g
    { genres := g, avg_rating := (grp.map Row.rating).sum / (grp.length : ℚ),
      num_ratings := grp.length }

/-- Genre-rating pipeline (app.py lines 101-107): keep the genres with at
least `minRatings` ratings and sort them by mean rating, ascending exactly
when the radio is on `"Low → High"`.  The source sorts with pandas
`sort_values` (an unstable quicksort); this embedding sorts with
`insertionSort` on the same key, which agrees with it up to the relative
order of genres with equal mean ratings. -/
def genreRating (df : List Row) (minRatings : Nat) (order : SortOrder) : List GenreStat :=
  let filtered := (genreStats df).filter fun r => minRatings ≤ r.num_ratings
  match order with
  | .lowToHigh => List.insertionSort (fun a b => a.avg_rating ≤ b.avg_rating) filtered
  | .highToLow => List.insertionSort (fun a b => b.avg_rating ≤ a.avg_rating) filtered

/-! ## Q3: rating trend by year (app.py lines 124-139) -/

/-- One row of `year_stats`: a release year with its mean rating and
number of ratings. -/
structure YearStat where
  year : Int
  avg_rating : ℚ
  n_ratings : Nat
deriving DecidableEq

/-- One row of the chart table of Q3: `year_stats` plus the
`avg_smoothed` column; `none` models the `NaN`s that a centered rolling
mean leaves at the boundary. -/
structure YearSmoothed where
  year : Int
  avg_rating : ℚ
  n_ratings : Nat
  avg_smoothed : Option ℚ
deriving DecidableEq

/-- `df.groupby("year").agg(avg_rating=("rating","mean"),
n_ratings=("rating","size")).reset_index()` (app.py lines 129-132): one
entry per distinct year, in ascending year order. -/
def yearStats (df : List Row) : List YearStat :=
  (List.insertionSort (fun a b : Int => a ≤ b) (df.map Row.year).dedup).map fun y =>
    let grp := df.filter fun r => r.year = y
    { year := y, avg_rating := (grp.map Row.rating).sum / (grp.length : ℚ),
      n_ratings := grp.length }

/-- The mask of app.py lines 133-134: keep the years inside the selected
closed range whose rating count reaches `minCountYear`. -/
def yearFiltered (df : List Row) (lo hi : Int) (minCountYear : Nat) : List YearStat :=
  (yearStats df).filter fun s => lo ≤ s.year ∧ s.year ≤ hi ∧ minCountYear ≤ s.n_ratings

/-- `Series.rolling(window=w, center=True).mean()` (app.py line 137) with
the default `min_periods = w`: with `o = (w-1)/2`, position `i` receives
the mean of the `w` consecutive entries ending at position `i + o` when
that window fits entirely inside the list, and `NaN` (modelled `none`)
otherwise. -/
def rollingCenteredMean (w : Nat) (xs : List ℚ) : List (Option ℚ) :=
  let o := (w - 1) / 2
  (List.range xs.length).map fun i =>
    if w ≤ i + o + 1 ∧ i + o + 1 ≤ xs.length then
      some ((((xs.drop (i + o + 1 - w)).take w).sum) / (w : ℚ))
    else none

/-- Year-trend pipeline (app.py lines 124-139): filter the per-year stats,
then either attach the centered rolling mean of width `smoothWindow`
(when `smoothWindow > 1` and the filtered table is non-empty) or copy
`avg_rating` into `avg_smoothed` unchanged. -/
def yearTrend (df : List Row) (lo hi : Int) (minCountYear smoothWindow : Nat) :
    List YearSmoothed :=
  let yf := yearFiltered df lo hi minCountYear
  if 1 < smoothWindow ∧ ¬yf.isEmpty then
    (yf.zip (rollingCenteredMean smoothWindow (yf.map YearStat.avg_rating))).map fun p =>
      { year := p.1.year, avg_rating := p.1.avg_rating, n_ratings := p.1.n_ratings,
        avg_smoothed := p.2 }
  else
    yf.map fun s =>
      { year := s.year, avg_rating := s.avg_rating, n_ratings := s.n_ratings,
        avg_smoothed := some s.avg_rating }

/-- The boundary pattern asserted of the smoothed column: the value is
missing exactly at the `k` positions at each end of the sequence and
present everywhere else. -/
def missingExactlyAtEnds (k : Nat) (xs : List (Option ℚ)) : Prop :=
  ∀ i < xs.length, (xs.getD i none = none ↔ (i < k ∨ xs.length ≤ i + k))

instance (k : Nat) (xs : List (Option ℚ)) : Decidable (missingExactlyAtEnds k xs) :=
  inferInstanceAs
    (Decidable (∀ i < xs.length, (xs.getD i none = none ↔ (i < k ∨ xs.length ≤ i + k))))

/-! ## Q4: top rated movies (app.py lines 162-169) -/

/-- One row of `movie_stats`: a `(movie_id, title)` group with its mean
rating and number of ratings. -/
structure MovieStat where
  movie_id : Nat
  title : String
  avg_rating : ℚ
  n_ratings : Nat
deriving DecidableEq

/-- The descending compound sort key of app.py lines 167-169:
`sort_values(["avg_rating", "n_ratings"], ascending=[False, False])`
places `a` before `b` when `a` has the larger mean rating, or equal mean
ratings and at least as many ratings. -/
def movieKeyGE (a b : MovieStat) : Prop :=
  b.avg_rating < a.avg_rating ∨ (a.avg_rating = b.avg_rating ∧ b.n_ratings ≤ a.n_ratings)

instance : DecidableRel movieKeyGE := fun a b =>
  inferInstanceAs (Decidable (b.avg_rating < a.avg_rating ∨
    (a.avg_rating = b.avg_rating ∧ b.n_ratings ≤ a.n_ratings)))

/-- `df.groupby(["movie_id", "title"]).agg(...).reset_index()` (app.py
lines 162-165): one entry per distinct `(movie_id, title)` pair, keys in
ascending lexicographic order. -/
def movieStats (df : List Row) : List MovieStat :=
  (List.insertionSort
      (fun a b : Nat × String => a.1 < b.1 ∨ (a.1 = b.1 ∧ a.2 ≤ b.2))
      (df.map fun r => (r.movie_id, r.title)).dedup).map fun k =>
    let grp := df.filter fun r => r.movie_id = k.1 ∧ r.title = k.2
    { movie_id := k.1, title := k.2,
      avg_rating := (grp.map Row.rating).sum / (grp.length : ℚ),
      n_ratings := grp.length }

/-- Top-movies pipeline (app.py lines 162-169): keep the movies with at
least `minMovieRatings` ratings, sort by (mean rating descending, count
descending) and keep the first `topN`. -/
def topMovies (df : List Row) (minMovieRatings topN : Nat) : List MovieStat :=
  ((List.insertionSort movieKeyGE
      ((movieStats df).filter fun r => minMovieRatings ≤ r.n_ratings)).take topN)

/-! ## Column lookups on a frame (pandas `KeyError` semantics)

Each pipeline starts from `df.groupby(...)` (app.py lines 65, 101, 129,
162); Q3 additionally reads `df["year"]` at line 124.  In pandas these
lookups raise `KeyError` when the column is absent, so the frame-level
pipelines check, in evaluation order, the columns they read and fail with
`missingColumn` before running the row-level pipeline. -/

/-- The error a pipeline raises on a frame lacking a column it reads. -/
inductive PipelineError where
  | missingColumn (col : String)
deriving DecidableEq

/-- Q1 on a frame: `df.groupby("genres").size()` reads only `genres`. -/
def genreDistributionF (fr : Frame) (minPct : ℚ) :
    Except PipelineError (List GenreCount) :=
  if "genres" ∉ fr.cols then .error (.missingColumn "genres")
  else .ok (genreDistribution fr.rows minPct)

/-- Q2 on a frame: `df.groupby("genres")` then the `rating` aggregations. -/
def genreRatingF (fr : Frame) (minRatings : Nat) (order : SortOrder) :
    Except PipelineError (List GenreStat) :=
  if "genres" ∉ fr.cols then .error (.missingColumn "genres")
  else if "rating" ∉ fr.cols then .error (.missingColumn "rating")
  else .ok (genreRating fr.rows minRatings order)

/-- Q3 on a frame: `df["year"].min()` (app.py line 124) reads `year`
first, then the `rating` aggregations. -/
def yearTrendF (fr : Frame) (lo hi : Int) (minCountYear smoothWindow : Nat) :
    Except PipelineError (List YearSmoothed) :=
  if "year" ∉ fr.cols then .error (.missingColumn "year")
  else if "rating" ∉ fr.cols then .error (.missingColumn "rating")
  else .ok (yearTrend fr.rows lo hi minCountYear smoothWindow)

/-- Q4 on a frame: `df.groupby(["movie_id", "title"])` reads both key
columns, then the `rating` aggregations. -/
def topMoviesF (fr : Frame) (minMovieRatings topN : Nat) :
    Except PipelineError (List MovieStat) :=
  if "movie_id" ∉ fr.cols then .error (.missingColumn "movie_id")
  else if "title" ∉ fr.cols then .error (.missingColumn "title")
  else if "rating" ∉ fr.cols then .error (.missingColumn "rating")
  else .ok (topMovies fr.rows minMovieRatings topN)

/-! ## Sample tables (used to instantiate the general theorems) -/

/-- A three-row sample table: three movies in three distinct years, two
genres. -/
def sampleRows : List Row :=
  [⟨1, "A", "Comedy", 4, 2000⟩, ⟨2, "B", "Drama", 2, 2001⟩, ⟨3, "C", "Drama", 3, 2002⟩]

/-- A frame exposing only the `rating` column. -/
def ratingOnlyFrame : Frame := ⟨["rating"], []⟩

/-! ## Helper lemmas -/

/-- The sum of the per-genre counts over the sorted distinct keys is the
number of rows. -/
theorem sum_counts_over_keys (df : List Row) :
    ((List.insertionSort (fun a b : String => a ≤ b) (df.map Row.genres).dedup).map
      fun g => (df.map Row.genres).count g).sum = df.length := by
  rw [((List.perm_insertionSort (fun a b : String => a ≤ b)
      (df.map Row.genres).dedup).map fun g => (df.map Row.genres).count g).sum_eq,
    List.sum_map_count_dedup_eq_length, List.length_map]

/-- Factoring a sum of scaled casts: `∑ 100 * f a / c = 100 * (∑ f a) / c`. -/
theorem sum_map_scale_div (l : List String) (f : String → ℕ) (c : ℚ) :
    (l.map fun a => 100 * (f a : ℚ) / c).sum = 100 * ((l.map f).sum : ℕ) / c := by
  induction l with
  | nil => simp
  | cons x xs ih =>
    simp only [List.map_cons, List.sum_cons, ih]
    push_cast
    ring

/-- The percentage column of `genreCounts` sums to `100` on a non-empty
table. -/
theorem genreCounts_pct_sum (df : List Row) (hdf : df ≠ []) :
    ((genreCounts df).map GenreCount.pct).sum = 100 := by
  have hlen : (0 : ℚ) < (df.length : ℚ) := by
    exact_mod_cast List.length_pos.mpr hdf
  simp only [genreCounts, List.map_map]
  rw [show ((GenreCount.pct ∘ fun g =>
      ({ genres := g, count := (df.map Row.genres).count g,
         pct := 100 * ((df.map Row.genres).count g : ℚ) /
           (((List.insertionSort (fun a b : String => a ≤ b)
             (df.map Row.genres).dedup).map fun g => (df.map Row.genres).count g).sum : ℕ) } :
          GenreCount))) = fun g => 100 * ((df.map Row.genres).count g : ℚ) /
           (((List.insertionSort (fun a b : String => a ≤ b)
             (df.map Row.genres).dedup).map fun g => (df.map Row.genres).count g).sum : ℕ)
    from rfl]
  rw [sum_map_scale_div, sum_counts_over_keys]
  rw [mul_div_assoc, div_self (ne_of_gt hlen), mul_one]

/-- The count column of `genreCounts` sums to the number of rows. -/
theorem genreCounts_count_sum (df : List Row) :
    ((genreCounts df).map GenreCount.count).sum = df.length := by
  simp only [genreCounts, List.map_map]
  exact sum_counts_over_keys df

/-- Splitting a sum over `genreCounts` along the major/minor partition. -/
theorem sum_map_major_minor {M : Type} [AddCommMonoid M]
    (l : List GenreCount) (minPct : ℚ) (f : GenreCount → M) :
    ((l.filter fun r => minPct ≤ r.pct).map f).sum
      + ((l.filter fun r => r.pct < minPct).map f).sum = (l.map f).sum := by
  have hp : (l.filter fun r => r.pct < minPct)
      = l.filter fun r => !(decide (minPct ≤ r.pct)) := by
    apply List.filter_congr
    intro x _
    rw [← decide_not]
    exact decide_eq_decide.mpr not_le.symm
  have hsum := (((List.filter_append_perm (fun r => decide (minPct ≤ r.pct)) l)).map f).sum_eq
  rw [List.map_append, List.sum_append] at hsum
  rw [hp]
  exact hsum

/-- `genreCounts` of a non-empty table is non-empty. -/
theorem genreCounts_ne_nil (df : List Row) (hdf : df ≠ []) :
    genreCounts df ≠ [] := by
  simp only [genreCounts, ne_eq, List.map_eq_nil_iff]
  intro h
  have := (List.perm_insertionSort (fun a b : String => a ≤ b)
    (df.map Row.genres).dedup).symm.length_eq
  rw [h] at this
  simp only [List.length_nil] at this
  exact hdf (by
    have hd := (List.dedup_eq_nil (df.map Row.genres)).mp (List.length_eq_zero.mp this)
    simpa using hd)

/-! ## Claims about Q1 -/

/-- C1: for every input table with at least one row and every threshold
`min_pct` in `[0, 10]`, the sum of the percentage field over all groups
returned by the genre-distribution pipeline (including the synthetic
`"Other"` group when present) equals `100`. -/
theorem genreDistribution_pct_sum_eq_100 (df : List Row) (minPct : ℚ)
    (hdf : df ≠ []) (_h0 : 0 ≤ minPct) (_h10 : minPct ≤ 10) :
    ((genreDistribution df minPct).map GenreCount.pct).sum = 100 := by
  have hsum := genreCounts_pct_sum df hdf
  have hpart := sum_map_major_minor (genreCounts df) minPct GenreCount.pct
  simp only [genreDistribution]
  by_cases hmin : ((genreCounts df).filter fun r => r.pct < minPct).isEmpty
  · rw [if_pos hmin]
    have hnil : ((genreCounts df).filter fun r => r.pct < minPct) = [] :=
      List.isEmpty_iff.mp hmin
    rw [hnil] at hpart
    simpa using hpart.trans hsum
  · rw [if_neg hmin, List.map_append, List.sum_append]
    simp only [List.map_cons, List.map_nil, List.sum_cons, List.sum_nil, add_zero]
    exact hpart.trans hsum

/-- Witness for C1 on the sample table. -/
theorem genreDistribution_pct_sum_eq_100_witness :
    ((genreDistribution sampleRows 2).map GenreCount.pct).sum = 100 :=
  genreDistribution_pct_sum_eq_100 sampleRows 2 (by decide) (by decide!) (by decide!)

/-- C2: on a non-empty table, if every genre group's percentage share is
below `min_pct` the output is exactly one `"Other"` row covering all rows
with percentage `100`; if no group's share is below `min_pct` the output
is exactly the genre-count table, with no synthetic row appended. -/
theorem genreDistribution_edge_cases (df : List Row) (minPct : ℚ) (hdf : df ≠ []) :
    ((∀ r ∈ genreCounts df, r.pct < minPct) →
      genreDistribution df minPct
        = [{ genres := "Other", count := df.length, pct := 100 }]) ∧
    ((∀ r ∈ genreCounts df, minPct ≤ r.pct) →
      genreDistribution df minPct = genreCounts df) := by
  constructor
  · intro hall
    have hminor : ((genreCounts df).filter fun r => r.pct < minPct) = genreCounts df :=
      List.filter_eq_self.mpr fun a ha => decide_eq_true (hall a ha)
    have hmajor : ((genreCounts df).filter fun r => minPct ≤ r.pct) = [] :=
      List.filter_eq_nil_iff.mpr fun a ha h =>
        (not_le.mpr (hall a ha)) (of_decide_eq_true h)
    simp only [genreDistribution]
    rw [hminor, hmajor, if_neg (by simpa [List.isEmpty_iff] using genreCounts_ne_nil df hdf),
      List.nil_append, genreCounts_count_sum df, genreCounts_pct_sum df hdf]
  · intro hall
    have hminor : ((genreCounts df).filter fun r => r.pct < minPct) = [] :=
      List.filter_eq_nil_iff.mpr fun a ha h =>
        (not_lt.mpr (hall a ha)) (of_decide_eq_true h)
    have hmajor : ((genreCounts df).filter fun r => minPct ≤ r.pct) = genreCounts df :=
      List.filter_eq_self.mpr fun a ha => decide_eq_true (hall a ha)
    simp only [genreDistribution]
    rw [hminor, hmajor, if_pos (by simp)]

/-- Witness for C2 on the sample table with an all-minor threshold. -/
theorem genreDistribution_edge_cases_witness :
    genreDistribution sampleRows 200 = [{ genres := "Other", count := 3, pct := 100 }] :=
  (genreDistribution_edge_cases sampleRows 200 (by decide)).1 (by decide!)

/-- C10: the counts of the returned rows (major groups plus the `"Other"`
row when present) sum to the number of input rows, and the `"Other"` row's
count is the total minus the sum of the major groups' counts. -/
theorem genreDistribution_count_conservation (df : List Row) (minPct : ℚ) :
    ((genreDistribution df minPct).map GenreCount.count).sum = df.length ∧
    (((genreCounts df).filter fun r => r.pct < minPct) ≠ [] →
      (genreDistribution df minPct).getLast?.map GenreCount.count
        = some (df.length
            - (((genreCounts df).filter fun r => minPct ≤ r.pct).map
                GenreCount.count).sum)) := by
  have hpart := sum_map_major_minor (genreCounts df) minPct GenreCount.count
  have htot := genreCounts_count_sum df
  constructor
  · simp only [genreDistribution]
    by_cases hmin : ((genreCounts df).filter fun r => r.pct < minPct).isEmpty
    · rw [if_pos hmin]
      have hnil : ((genreCounts df).filter fun r => r.pct < minPct) = [] :=
        List.isEmpty_iff.mp hmin
      rw [hnil] at hpart
      simpa using hpart.trans htot
    · rw [if_neg hmin, List.map_append, List.sum_append]
      simp only [List.map_cons, List.map_nil, List.sum_cons, List.sum_nil, add_zero]
      exact hpart.trans htot
  · intro hne
    have hpm := hpart.trans htot
    simp only [genreDistribution]
    rw [if_neg (by simpa [List.isEmpty_iff] using hne), List.getLast?_concat]
    simp only [Option.map_some']
    congr 1
    omega

/-- Witness for C10 on the sample table with threshold `50`. -/
theorem genreDistribution_count_conservation_witness :
    ((genreDistribution sampleRows 50).map GenreCount.count).sum = sampleRows.length ∧
    (genreDistribution sampleRows 50).getLast?.map GenreCount.count
      = some (sampleRows.length
          - (((genreCounts sampleRows).filter fun r => 50 ≤ r.pct).map
              GenreCount.count).sum) :=
  ⟨(genreDistribution_count_conservation sampleRows 50).1,
   (genreDistribution_count_conservation sampleRows 50).2 (by decide!)⟩

/-! ## Claims about Q2 -/

/-- C4: the sequence of mean ratings returned by the genre-rating
pipeline is non-decreasing for ascending sort (`"Low → High"`) and
non-increasing for descending sort (`"High → Low"`). -/
theorem genreRating_sorted (df : List Row) (minRatings : Nat) :
    ((genreRating df minRatings .lowToHigh).map GenreStat.avg_rating).Sorted (· ≤ ·) ∧
    ((genreRating df minRatings .highToLow).map GenreStat.avg_rating).Sorted (· ≥ ·) := by
  constructor
  · have h :=
      letI : IsTotal GenreStat fun a b => a.avg_rating ≤ b.avg_rating :=
        ⟨fun a b => le_total _ _⟩
      letI : IsTrans GenreStat fun a b => a.avg_rating ≤ b.avg_rating :=
        ⟨fun _ _ _ hab hbc => le_trans hab hbc⟩
      List.sorted_insertionSort (fun a b : GenreStat => a.avg_rating ≤ b.avg_rating)
        ((genreStats df).filter fun r => minRatings ≤ r.num_ratings)
    rw [List.Sorted, List.pairwise_map]
    exact h
  · have h :=
      letI : IsTotal GenreStat fun a b => b.avg_rating ≤ a.avg_rating :=
        ⟨fun a b => (le_total a.avg_rating b.avg_rating).symm⟩
      letI : IsTrans GenreStat fun a b => b.avg_rating ≤ a.avg_rating :=
        ⟨fun _ _ _ hab hbc => le_trans hbc hab⟩
      List.sorted_insertionSort (fun a b : GenreStat => b.avg_rating ≤ a.avg_rating)
        ((genreStats df).filter fun r => minRatings ≤ r.num_ratings)
    rw [List.Sorted, List.pairwise_map]
    exact h

/-- C5: raising the `min_ratings` floor never increases the number of
groups returned by the genre-rating pipeline. -/
theorem genreRating_length_antitone (df : List Row) (order : SortOrder) (a b : Nat)
    (hab : a ≤ b) :
    (genreRating df b order).length ≤ (genreRating df a order).length := by
  have hlen : ∀ (m : Nat), (genreRating df m order).length
      = ((genreStats df).filter fun r => m ≤ r.num_ratings).length := by
    intro m
    cases order <;>
      simp [genreRating, (List.perm_insertionSort _ _).length_eq]
  rw [hlen a, hlen b, ← List.countP_eq_length_filter, ← List.countP_eq_length_filter]
  exact List.countP_mono_left fun x _ hx =>
    decide_eq_true (le_trans hab (of_decide_eq_true hx))

/-- Witness for C5 on the sample table with floors `1 ≤ 2`. -/
theorem genreRating_length_antitone_witness :
    (genreRating sampleRows 2 .highToLow).length
      ≤ (genreRating sampleRows 1 .highToLow).length :=
  genreRating_length_antitone sampleRows .highToLow 1 2 (by decide)

/-! ## Claims about Q4 -/

/-- The compound key of the top-movies sort is total. -/
theorem movieKeyGE_total (a b : MovieStat) : movieKeyGE a b ∨ movieKeyGE b a := by
  unfold movieKeyGE
  rcases lt_trichotomy a.avg_rating b.avg_rating with h | h | h
  · right; left; exact h
  · rcases le_total b.n_ratings a.n_ratings with hn | hn
    · left; right; exact ⟨h, hn⟩
    · right; right; exact ⟨h.symm, hn⟩
  · left; left; exact h

/-- The compound key of the top-movies sort is transitive. -/
theorem movieKeyGE_trans (a b c : MovieStat)
    (hab : movieKeyGE a b) (hbc : movieKeyGE b c) : movieKeyGE a c := by
  unfold movieKeyGE at *
  rcases hab with h1 | ⟨h1, hn1⟩
  · rcases hbc with h2 | ⟨h2, _⟩
    · exact Or.inl (lt_trans h2 h1)
    · exact Or.inl (h2 ▸ h1)
  · rcases hbc with h2 | ⟨h2, hn2⟩
    · exact Or.inl (h1 ▸ h2)
    · exact Or.inr ⟨h1.trans h2, le_trans hn2 hn1⟩

/-- C3: for `min_movie_ratings ≥ 1` and `top_n` in `[3, 25]`, the
top-movies pipeline returns exactly
`min top_n (number of (movie_id, title) groups with count ≥ min_movie_ratings)`
rows, ordered by the compound key (mean rating descending, then rating
count descending). -/
theorem topMovies_length_and_sorted (df : List Row) (m n : Nat)
    (_hm : 1 ≤ m) (_hn3 : 3 ≤ n) (_hn25 : n ≤ 25) :
    (topMovies df m n).length
      = min n ((movieStats df).filter fun r => m ≤ r.n_ratings).length ∧
    (topMovies df m n).Pairwise movieKeyGE := by
  constructor
  · rw [topMovies, List.length_take,
      (List.perm_insertionSort movieKeyGE
        ((movieStats df).filter fun r => m ≤ r.n_ratings)).length_eq]
  · have h :=
      letI : IsTotal MovieStat movieKeyGE := ⟨movieKeyGE_total⟩
      letI : IsTrans MovieStat movieKeyGE := ⟨movieKeyGE_trans⟩
      List.sorted_insertionSort movieKeyGE
        ((movieStats df).filter fun r => m ≤ r.n_ratings)
    exact List.Pairwise.sublist (List.take_sublist n _) h

/-- Witness for C3 on the sample table with `m = 1`, `n = 3`. -/
theorem topMovies_length_and_sorted_witness :
    (topMovies sampleRows 1 3).length
      = min 3 ((movieStats sampleRows).filter fun r => 1 ≤ r.n_ratings).length ∧
    (topMovies sampleRows 1 3).Pairwise movieKeyGE :=
  topMovies_length_and_sorted sampleRows 1 3 (by decide) (by decide) (by decide)

/-! ## Claims about Q3 -/

/-- C6: with `smooth_window = 1` the smoothed mean of every returned year
equals that year's raw mean rating. -/
theorem yearTrend_window_one (df : List Row) (lo hi : Int) (mc : Nat) :
    ∀ s ∈ yearTrend df lo hi mc 1, s.avg_smoothed = some s.avg_rating := by
  intro s hs
  simp only [yearTrend] at hs
  rw [if_neg (by simp)] at hs
  obtain ⟨t, _, rfl⟩ := List.mem_map.mp hs
  rfl

/-- Witness for C6: the year 2000 entry of the sample table's trend. -/
theorem yearTrend_window_one_witness :
    (⟨2000, 4, 1, some 4⟩ : YearSmoothed).avg_smoothed
      = some (⟨2000, 4, 1, some 4⟩ : YearSmoothed).avg_rating :=
  yearTrend_window_one sampleRows 2000 2002 0 ⟨2000, 4, 1, some 4⟩ (by decide!)

/-- C7 counterexample: with the even window `w = 2` on a three-year
filtered sequence the smoothed value is missing at the first position,
although `(w-1)/2 = 0` predicts no missing position at either end. -/
theorem yearTrend_boundary_counterexample :
    ¬ missingExactlyAtEnds ((2 - 1) / 2)
      ((yearTrend sampleRows 2000 2002 0 2).map YearSmoothed.avg_smoothed) := by
  decide!

/-- C7 (amended): for `smooth_window = w > 1`, the smoothed value of the
`i`-th returned year is missing exactly at the first `w - 1 - (w-1)/2`
positions (which is `(w-1)/2` for odd `w`, `w/2` for even `w`) and the
last `(w-1)/2` positions of the filtered sequence, and everywhere else it
equals the centered moving average of width `w`. -/
theorem yearTrend_smoothed_boundary (df : List Row) (lo hi : Int) (mc w : Nat)
    (hw : 1 < w) (i : Nat) (hilt : i < (yearTrend df lo hi mc w).length) :
    (((yearTrend df lo hi mc w).map YearSmoothed.avg_smoothed).getD i none = none
      ↔ (i < w - 1 - (w - 1) / 2
          ∨ (yearFiltered df lo hi mc).length - (w - 1) / 2 ≤ i)) ∧
    ((yearTrend df lo hi mc w).map YearSmoothed.avg_smoothed).getD i none
      = (if i < w - 1 - (w - 1) / 2
            ∨ (yearFiltered df lo hi mc).length - (w - 1) / 2 ≤ i then none
         else some (((((yearFiltered df lo hi mc).map YearStat.avg_rating).drop
              (i + (w - 1) / 2 + 1 - w)).take w).sum / (w : ℚ))) := by
  by_cases hyf : (yearFiltered df lo hi mc).isEmpty
  · have hnil : yearTrend df lo hi mc w = [] := by
      simp only [yearTrend]
      rw [if_neg (by simp [hyf]), List.isEmpty_iff.mp hyf, List.map_nil]
    rw [hnil] at hilt
    simp at hilt
  · have hcond : 1 < w ∧ ¬(yearFiltered df lo hi mc).isEmpty := ⟨hw, by simpa using hyf⟩
    have hout : yearTrend df lo hi mc w
        = ((yearFiltered df lo hi mc).zip
            (rollingCenteredMean w
              ((yearFiltered df lo hi mc).map YearStat.avg_rating))).map fun p =>
          { year := p.1.year, avg_rating := p.1.avg_rating, n_ratings := p.1.n_ratings,
            avg_smoothed := p.2 } := by
      simp only [yearTrend]
      rw [if_pos hcond]
    have hlen_rcm : (rollingCenteredMean w
        ((yearFiltered df lo hi mc).map YearStat.avg_rating)).length
        = (yearFiltered df lo hi mc).length := by
      simp [rollingCenteredMean]
    have hcol : (yearTrend df lo hi mc w).map YearSmoothed.avg_smoothed
        = rollingCenteredMean w ((yearFiltered df lo hi mc).map YearStat.avg_rating) := by
      rw [hout, List.map_map]
      exact List.map_snd_zip _ _ (le_of_eq hlen_rcm)
    have hi' : i < (yearFiltered df lo hi mc).length := by
      rw [hout, List.length_map, List.length_zip, hlen_rcm, Nat.min_self] at hilt
      exact hilt
    have hentry : (rollingCenteredMean w
        ((yearFiltered df lo hi mc).map YearStat.avg_rating)).getD i none
        = (if w ≤ i + (w - 1) / 2 + 1
              ∧ i + (w - 1) / 2 + 1 ≤ (yearFiltered df lo hi mc).length then
            some (((((yearFiltered df lo hi mc).map YearStat.avg_rating).drop
              (i + (w - 1) / 2 + 1 - w)).take w).sum / (w : ℚ))
          else none) := by
      simp only [rollingCenteredMean, List.length_map]
      rw [List.getD_eq_getElem?_getD, List.getElem?_map, List.getElem?_range hi']
      simp
    rw [hcol, hentry]
    by_cases hA : w ≤ i + (w - 1) / 2 + 1
        ∧ i + (w - 1) / 2 + 1 ≤ (yearFiltered df lo hi mc).length
    · have hB : ¬(i < w - 1 - (w - 1) / 2
          ∨ (yearFiltered df lo hi mc).length - (w - 1) / 2 ≤ i) := by omega
      rw [if_pos hA, if_neg hB]
      exact ⟨iff_of_false (Option.some_ne_none _) hB, rfl⟩
    · have hB : i < w - 1 - (w - 1) / 2
          ∨ (yearFiltered df lo hi mc).length - (w - 1) / 2 ≤ i := by omega
      rw [if_neg hA, if_pos hB]
      exact ⟨iff_of_true rfl hB, rfl⟩

/-- Witness for the amended C7: the middle year of the sample table with
window `3` carries the average of the three raw means; the pattern
predicate holds there. -/
theorem yearTrend_smoothed_boundary_witness :
    (((yearTrend sampleRows 2000 2002 0 3).map YearSmoothed.avg_smoothed).getD 1 none = none
      ↔ (1 < 3 - 1 - (3 - 1) / 2
          ∨ (yearFiltered sampleRows 2000 2002 0).length - (3 - 1) / 2 ≤ 1)) ∧
    ((yearTrend sampleRows 2000 2002 0 3).map YearSmoothed.avg_smoothed).getD 1 none
      = (if 1 < 3 - 1 - (3 - 1) / 2
            ∨ (yearFiltered sampleRows 2000 2002 0).length - (3 - 1) / 2 ≤ 1 then none
         else some (((((yearFiltered sampleRows 2000 2002 0).map YearStat.avg_rating).drop
              (1 + (3 - 1) / 2 + 1 - 3)).take 3).sum / (3 : ℚ))) :=
  yearTrend_smoothed_boundary sampleRows 2000 2002 0 3 (by decide) 1 (by decide!)

/-! ## Claim C9: missing grouping columns -/

/-- C9: a pipeline invoked on a frame lacking its grouping key column
(`genres`, `year`, or `movie_id`/`title`) fails with an error instead of
returning a result table. -/
theorem pipelines_missing_column (fr : Frame) (minPct : ℚ) (mr : Nat) (ord : SortOrder)
    (lo hi : Int) (mc w mm tn : Nat) :
    ("genres" ∉ fr.cols → ∃ e, genreDistributionF fr minPct = .error e) ∧
    ("genres" ∉ fr.cols → ∃ e, genreRatingF fr mr ord = .error e) ∧
    ("year" ∉ fr.cols → ∃ e, yearTrendF fr lo hi mc w = .error e) ∧
    (("movie_id" ∉ fr.cols ∨ "title" ∉ fr.cols) → ∃ e, topMoviesF fr mm tn = .error e) := by
  refine ⟨fun h => ?_, fun h => ?_, fun h => ?_, fun h => ?_⟩
  · exact ⟨.missingColumn "genres", by unfold genreDistributionF; rw [if_pos h]⟩
  · exact ⟨.missingColumn "genres", by unfold genreRatingF; rw [if_pos h]⟩
  · exact ⟨.missingColumn "year", by unfold yearTrendF; rw [if_pos h]⟩
  · by_cases h1 : "movie_id" ∉ fr.cols
    · exact ⟨.missingColumn "movie_id", by unfold topMoviesF; rw [if_pos h1]⟩
    · have h2 : "title" ∉ fr.cols := h.resolve_left h1
      exact ⟨.missingColumn "title", by unfold topMoviesF; rw [if_neg h1, if_pos h2]⟩

/-- Witness for C9: every pipeline errors on the frame that only has a
`rating` column. -/
theorem pipelines_missing_column_witness :
    (∃ e, genreDistributionF ratingOnlyFrame 2 = .error e) ∧
    (∃ e, genreRatingF ratingOnlyFrame 50 .highToLow = .error e) ∧
    (∃ e, yearTrendF ratingOnlyFrame 2000 2002 50 1 = .error e) ∧
    (∃ e, topMoviesF ratingOnlyFrame 1 5 = .error e) := by
  have h := pipelines_missing_column ratingOnlyFrame 2 50 .highToLow 2000 2002 50 1 1 5
  exact ⟨h.1 (by decide), h.2.1 (by decide), h.2.2.1 (by decide),
    h.2.2.2 (Or.inl (by decide))⟩

end MovieDashboard
